import Mathlib

/-!
Shallow embedding of the `tauri-sys` binding layer (`src/tauri.rs` and
`build.rs`).  The three wrapper functions are pure pass-throughs to a host
runtime, so each is embedded as a function parameterized over the host's
behaviour (a function from the forwarded arguments to the host's response)
and over the generic serializer/deserializer supplied by the caller's type.
A Rust panic (`unwrap` on a failed operation) is modelled as `Option.none`.
-/

namespace TauriSys

/-- A JavaScript value crossing the WASM boundary (`wasm_bindgen::JsValue`),
abstracted to the shapes this binding layer inspects: strings, numbers, and
an opaque remainder for every other JS value. -/
inductive JsValue where
  | str (s : String)
  | num (n : Int)
  | other (tag : Nat)
deriving DecidableEq, Repr

/-- `JsValue::as_string`: `some` exactly on JS strings. -/
def JsValue.as_string : JsValue → Option String
  | .str s => some s
  | _ => none

/-- `JsValue::as_f64`: `some` exactly on JS numbers. -/
def JsValue.as_f64 : JsValue → Option Int
  | .num n => some n
  | _ => none

/-- A parsed URL as produced by the external `url` crate collaborator: the
scheme and the remainder of the text after the first colon. -/
structure Url where
  scheme : String
  rest : String
deriving DecidableEq, Repr

/-- Scheme characters allowed after the leading letter (RFC 3986). -/
def schemeChar (c : Char) : Bool :=
  c.isAlphanum || c == '+' || c == '-' || c == '.'

/-- Model of the external `url` crate's `Url::parse` collaborator: parsing
succeeds exactly when the text has the absolute form `scheme ':' rest` with
a letter-initial scheme made of valid scheme characters, and otherwise
reports a parse error (`none`). -/
def Url.parse (s : String) : Option Url :=
  match s.toList.findIdx? (· == ':') with
  | none => none
  | some i =>
    match s.toList.take i with
    | [] => none
    | c :: cs =>
      if c.isAlpha && cs.all schemeChar then
        some ⟨String.mk (c :: cs), String.mk (s.toList.drop (i + 1))⟩
      else none

/-- `convert_file_src` (src/tauri.rs lines 38-47): forwards the file path
and the optional protocol to the host's `convertFileSrc`, then parses the
returned text into a `Url`.  Both `as_string().unwrap()` (non-string host
value) and `Url::parse(..).unwrap()` (malformed URL text) panic on failure;
a panic is `none`. -/
def convert_file_src (host : String → Option String → JsValue)
    (file_path : String) (protocol : Option String) : Option Url :=
  match (host file_path protocol).as_string with
  | none => none
  | some s =>
    match Url.parse s with
    | none => none
    | some u => some u

/-- Modelled from the spec: the crate-level error type is declared in the
crate root, which is not among the source files here; `tauri.rs` only uses
`crate::Error::Other` and the `Into` conversion from the deserializer's
error.  Per the spec there are two kinds only: (a) an opaque value the host
rejected with, and (b) a deserialization failure. -/
inductive Error where
  | Other (val : JsValue)
  | Serde (msg : String)
deriving DecidableEq, Repr

/-- `invoke` (src/tauri.rs lines 67-73): serializes `args`
(`to_value(args).unwrap()` — a serialization failure panics, modelled as
`none`), forwards the command name and the serialized value to the host's
`invoke`, maps a host rejection to `Error.Other`, and deserializes a
resolved value, mapping a deserialization failure to `Error.Serde`. -/
def invoke {A R : Type} (ser : A → Option JsValue) (de : JsValue → Except String R)
    (host : String → JsValue → Except JsValue JsValue)
    (cmd : String) (args : A) : Option (Except Error R) :=
  match ser args with
  | none => none
  | some v =>
    match host cmd v with
    | Except.error e => some (Except.error (Error.Other e))
    | Except.ok raw =>
      match de raw with
      | Except.error m => some (Except.error (Error.Serde m))
      | Except.ok r => some (Except.ok r)

/-- The closure `transform_callback` hands the host: deserializes the raw
value the host later delivers (`from_value(raw).unwrap()` — a failure
panics, modelled as `none`) and then calls the caller's function on the
result; the call's observable effect has abstract type `E`. -/
def wrap_callback {T E : Type} (de : JsValue → Except String T)
    (callback : T → E) : JsValue → Option E :=
  fun raw =>
    match de raw with
    | Except.error _ => none
    | Except.ok t => some (callback t)

/-- `transform_callback` (src/tauri.rs lines 79-88): registers the wrapped
closure and the `once` flag with the host's `transformCallback` and reads
the returned identifier with `as_f64().unwrap()` — a non-numeric host
return panics, modelled as `none`. -/
def transform_callback {T E : Type} (de : JsValue → Except String T)
    (host : (JsValue → Option E) → Bool → JsValue)
    (callback : T → E) (once : Bool) : Option Int :=
  (host (wrap_callback de callback) once).as_f64

/-- A concrete deserializer (numbers only) used to exercise the generic
wrappers on concrete inputs. -/
def deInt : JsValue → Except String Int
  | .num n => Except.ok n
  | _ => Except.error "de"

/-- The Windows branch of `build.rs`: the program and argument list handed
to `Command`. -/
def windows_bundler_cmd : String × List String :=
  ("cmd",
   ["/C", "esbuild", "--outdir=dist", "--format=esm", "--bundle",
    "tauri/tooling/api/src/app.ts",
    "tauri/tooling/api/src/clipboard.ts",
    "tauri/tooling/api/src/tauri.ts",
    "tauri/tooling/api/src/event.ts",
    "tauri/tooling/api/src/mocks.ts"])

/-- The non-Windows branch of `build.rs`: the program and argument list
handed to `Command`. -/
def other_bundler_cmd : String × List String :=
  ("esbuild",
   ["--outdir=dist", "--format=esm", "--bundle",
    "tauri/tooling/api/src/app.ts",
    "tauri/tooling/api/src/clipboard.ts",
    "tauri/tooling/api/src/tauri.ts",
    "tauri/tooling/api/src/event.ts",
    "tauri/tooling/api/src/mocks.ts"])

/-- The five front-end source files the build step bundles. -/
def bundler_source_files : List String :=
  ["tauri/tooling/api/src/app.ts",
   "tauri/tooling/api/src/clipboard.ts",
   "tauri/tooling/api/src/tauri.ts",
   "tauri/tooling/api/src/event.ts",
   "tauri/tooling/api/src/mocks.ts"]

/-- Claim C1: for every host response to `convert_file_src`, if the text
the host returns is a malformed URL the call fails (panics) rather than
returning a URL, and otherwise it returns exactly the URL parsed from that
text. -/
theorem C1_convert_file_src_parses_host_text
    (host : String → Option String → JsValue) (fp : String) (p : Option String)
    (s : String) (h : host fp p = JsValue.str s) :
    (Url.parse s = none → convert_file_src host fp p = none) ∧
    (∀ u, Url.parse s = some u → convert_file_src host fp p = some u) := by
  constructor
  · intro hp
    simp [convert_file_src, h, JsValue.as_string, hp]
  · intro u hp
    simp [convert_file_src, h, JsValue.as_string, hp]

/-- Witness for C1 at a concrete well-formed and a concrete malformed host
text. -/
theorem C1_witness :
    convert_file_src (fun _ _ => JsValue.str "asset://localhost/a.png")
        "a.png" none = some ⟨"asset", "//localhost/a.png"⟩ ∧
    convert_file_src (fun _ _ => JsValue.str "no scheme here")
        "a.png" none = none :=
  ⟨(C1_convert_file_src_parses_host_text _ "a.png" none
      "asset://localhost/a.png" rfl).2 _ (by decide),
   (C1_convert_file_src_parses_host_text _ "a.png" none
      "no scheme here" rfl).1 (by decide)⟩

/-- Claim C5: `convert_file_src` forwards the path and the optional
protocol to the host unchanged — its result is determined by the host's
response at exactly that path/protocol pair, with no local access check,
defaulting, or transformation of either argument before the host call. -/
theorem C5_convert_file_src_forwards
    (host host' : String → Option String → JsValue)
    (fp : String) (p : Option String) (h : host fp p = host' fp p) :
    convert_file_src host fp p = convert_file_src host' fp p := by
  simp [convert_file_src, h]

/-- Witness for C5: two hosts that agree only at the forwarded pair give
the same result. -/
theorem C5_witness :
    convert_file_src (fun fp _ => JsValue.str fp) "https://x" (some "asset") =
      convert_file_src (fun _ _ => JsValue.str "https://x")
        "https://x" (some "asset") :=
  C5_convert_file_src_forwards _ _ "https://x" (some "asset") rfl

/-- Claim C9: if the host resolves `convert_file_src` with a value that is
not a string the call panics; it can only complete by returning a URL
parsed from a string the host returned — its result type carries no error
case. -/
theorem C9_convert_file_src_nonstring_panics
    (host : String → Option String → JsValue)
    (fp : String) (p : Option String) :
    ((host fp p).as_string = none → convert_file_src host fp p = none) ∧
    (∀ u, convert_file_src host fp p = some u →
      ∃ s, host fp p = JsValue.str s ∧ Url.parse s = some u) := by
  constructor
  · intro h
    simp [convert_file_src, h]
  · intro u hu
    cases hh : host fp p with
    | str s =>
      refine ⟨s, rfl, ?_⟩
      rw [convert_file_src, hh] at hu
      cases hp : Url.parse s with
      | none => simp [JsValue.as_string, hp] at hu
      | some u0 =>
        simp [JsValue.as_string, hp] at hu
        simp [hp, hu]
    | num n => rw [convert_file_src, hh] at hu; simp [JsValue.as_string] at hu
    | other t => rw [convert_file_src, hh] at hu; simp [JsValue.as_string] at hu

/-- Witness for C9: a host resolving with a number makes the call panic. -/
theorem C9_witness :
    convert_file_src (fun _ _ => JsValue.num 7) "p" none = none :=
  (C9_convert_file_src_nonstring_panics (fun _ _ => JsValue.num 7) "p" none).1 rfl

/-- Claim C2: assuming the arguments serialize, `invoke` returns an error
value exactly when the host rejects or the resolved value fails to
deserialize; a rejection is surfaced as the opaque `Error.Other` and a
deserialization failure as the distinct `Error.Serde` kind. -/
theorem C2_invoke_error_kinds {A R : Type}
    (ser : A → Option JsValue) (de : JsValue → Except String R)
    (host : String → JsValue → Except JsValue JsValue)
    (cmd : String) (args : A) (v : JsValue) (h : ser args = some v) :
    (∀ e, host cmd v = Except.error e →
      invoke ser de host cmd args = some (Except.error (Error.Other e))) ∧
    (∀ raw m, host cmd v = Except.ok raw → de raw = Except.error m →
      invoke ser de host cmd args = some (Except.error (Error.Serde m))) ∧
    (∀ r, invoke ser de host cmd args = some (Except.ok r) →
      ∃ raw, host cmd v = Except.ok raw ∧ de raw = Except.ok r) := by
  refine ⟨?_, ?_, ?_⟩
  · intro e he
    simp [invoke, h, he]
  · intro raw m hr hm
    simp [invoke, h, hr, hm]
  · intro r hr
    rw [invoke, h] at hr
    cases hh : host cmd v with
    | error e => simp [hh] at hr
    | ok raw =>
      refine ⟨raw, rfl, ?_⟩
      simp only [hh] at hr
      cases hd : de raw with
      | error m => simp [hd] at hr
      | ok r0 =>
        simp [hd] at hr
        simp [hd, hr]

/-- Witness for C2: with a concrete serializer and deserializer, a
rejecting host yields the opaque error and a resolving host whose value
does not deserialize yields the deserialization error. -/
theorem C2_witness :
    invoke (fun (n : Int) => some (JsValue.num n)) deInt
        (fun _ v => Except.error v) "cmd" 3 =
      some (Except.error (Error.Other (JsValue.num 3))) ∧
    invoke (fun (n : Int) => some (JsValue.num n)) deInt
        (fun _ _ => Except.ok (JsValue.str "oops")) "cmd" 3 =
      some (Except.error (Error.Serde "de")) :=
  ⟨(C2_invoke_error_kinds _ _ _ "cmd" 3 (JsValue.num 3) rfl).1 _ rfl,
   (C2_invoke_error_kinds _ _ _ "cmd" 3 (JsValue.num 3) rfl).2.1
      (JsValue.str "oops") "de" rfl rfl⟩

/-- Claim C3: `invoke` passes the command name unchanged and exactly the
serialized form of the arguments to the host — its result depends on the
host only through the response at that one call, with no local validation,
retry, or transformation — and when the host resolves it returns exactly
the deserialization of the host's response, unchanged. -/
theorem C3_invoke_forwards {A R : Type}
    (ser : A → Option JsValue) (de : JsValue → Except String R)
    (host host' : String → JsValue → Except JsValue JsValue)
    (cmd : String) (args : A) (v : JsValue) (h : ser args = some v) :
    (host cmd v = host' cmd v →
      invoke ser de host cmd args = invoke ser de host' cmd args) ∧
    (∀ raw r, host cmd v = Except.ok raw → de raw = Except.ok r →
      invoke ser de host cmd args = some (Except.ok r)) := by
  constructor
  · intro hh
    simp [invoke, h, hh]
  · intro raw r hr hd
    simp [invoke, h, hr, hd]

/-- Witness for C3: two hosts agreeing at the forwarded call give the same
result, and a resolving host's response comes back deserialized
unchanged. -/
theorem C3_witness :
    invoke (fun (n : Int) => some (JsValue.num n)) deInt
        (fun _ v => Except.ok v) "add" 5 = some (Except.ok 5) ∧
    invoke (fun (n : Int) => some (JsValue.num n)) deInt
        (fun _ v => Except.ok v) "add" 5 =
      invoke (fun (n : Int) => some (JsValue.num n)) deInt
        (fun _ _ => Except.ok (JsValue.num 5)) "add" 5 :=
  ⟨(C3_invoke_forwards _ _ _ (fun _ v => Except.ok v) "add" 5
      (JsValue.num 5) rfl).2 (JsValue.num 5) 5 rfl rfl,
   (C3_invoke_forwards _ _ _ _ "add" 5 (JsValue.num 5) rfl).1 rfl⟩

/-- Claim C8: when the caller-supplied arguments fail to serialize,
`invoke` panics rather than returning either error kind or a success
value. -/
theorem C8_invoke_ser_panics {A R : Type}
    (ser : A → Option JsValue) (de : JsValue → Except String R)
    (host : String → JsValue → Except JsValue JsValue)
    (cmd : String) (args : A) (h : ser args = none) :
    invoke ser de host cmd args = none := by
  simp [invoke, h]

/-- Witness for C8: a serializer that fails on the given arguments makes
the call panic. -/
theorem C8_witness :
    invoke (fun (_ : Unit) => (none : Option JsValue)) deInt
      (fun _ v => Except.ok v) "cmd" () = none :=
  C8_invoke_ser_panics _ _ _ "cmd" () rfl

/-- Claim C4: `transform_callback` registers with the host a wrapper that
first deserializes the opaque value the host later delivers and then calls
the caller's function on the result; it forwards the `once` flag unchanged
(the result depends on the host only through its response to exactly that
wrapper/flag registration) and returns the numeric identifier the host
assigned. -/
theorem C4_transform_callback_registers {T E : Type}
    (de : JsValue → Except String T)
    (host host' : (JsValue → Option E) → Bool → JsValue)
    (cb : T → E) (once : Bool) :
    (∀ raw t, de raw = Except.ok t → wrap_callback de cb raw = some (cb t)) ∧
    (∀ n, host (wrap_callback de cb) once = JsValue.num n →
      transform_callback de host cb once = some n) ∧
    (host (wrap_callback de cb) once = host' (wrap_callback de cb) once →
      transform_callback de host cb once = transform_callback de host' cb once) := by
  refine ⟨?_, ?_, ?_⟩
  · intro raw t ht
    simp [wrap_callback, ht]
  · intro n hn
    simp [transform_callback, hn, JsValue.as_f64]
  · intro hh
    simp [transform_callback, hh]

/-- Witness for C4: the wrapper calls the callback on the deserialized
value, and the identifier the host assigns comes back as the result. -/
theorem C4_witness :
    wrap_callback deInt (fun n => n + 1) (JsValue.num 9) = some 10 ∧
    transform_callback deInt (fun _ _ => JsValue.num 42)
      (fun (n : Int) => n + 1) true = some 42 :=
  ⟨(C4_transform_callback_registers deInt (fun _ _ => JsValue.num 42)
      (fun _ _ => JsValue.num 42) (fun n => n + 1) true).1
      (JsValue.num 9) 9 rfl,
   (C4_transform_callback_registers deInt (fun _ _ => JsValue.num 42)
      (fun _ _ => JsValue.num 42) (fun n => n + 1) true).2.1 42 rfl⟩

/-- Claim C10: the wrapper registered by `transform_callback` panics when
the value the host delivers does not deserialize, so the caller's function
only ever runs on successfully deserialized values; and
`transform_callback` itself panics when the identifier the host returns is
not a number. -/
theorem C10_transform_callback_panics {T E : Type}
    (de : JsValue → Except String T)
    (host : (JsValue → Option E) → Bool → JsValue)
    (cb : T → E) (once : Bool) :
    (∀ raw m, de raw = Except.error m → wrap_callback de cb raw = none) ∧
    (∀ raw e, wrap_callback de cb raw = some e →
      ∃ t, de raw = Except.ok t ∧ e = cb t) ∧
    ((host (wrap_callback de cb) once).as_f64 = none →
      transform_callback de host cb once = none) := by
  refine ⟨?_, ?_, ?_⟩
  · intro raw m hm
    simp [wrap_callback, hm]
  · intro raw e he
    rw [wrap_callback] at he
    cases hd : de raw with
    | error m => simp [hd] at he
    | ok t =>
      simp [hd] at he
      exact ⟨t, rfl, he.symm⟩
  · intro hn
    simp [transform_callback, hn]

/-- Witness for C10: a non-deserializable delivery makes the wrapper panic,
and a host returning a string identifier makes the registration panic. -/
theorem C10_witness :
    wrap_callback deInt (fun (n : Int) => n + 1) (JsValue.str "bad") = none ∧
    transform_callback deInt (fun _ _ => JsValue.str "id")
      (fun (n : Int) => n + 1) false = none :=
  ⟨(C10_transform_callback_panics deInt (fun _ _ => JsValue.str "id")
      (fun n => n + 1) false).1 (JsValue.str "bad") "de" rfl,
   (C10_transform_callback_panics deInt (fun _ _ => JsValue.str "id")
      (fun n => n + 1) false).2.2 rfl⟩

/-- Claim C6: each of `invoke`, `convert_file_src` and
`transform_callback` is stateless and deterministic — two runs with equal
arguments and identical host behaviour at the forwarded call produce equal
results, and no call mutates any state of this layer that a later call
could observe (each result is a pure function of the arguments and the
host's response alone). -/
theorem C6_layer_stateless {A R T E : Type}
    (ser : A → Option JsValue) (de : JsValue → Except String R)
    (deT : JsValue → Except String T)
    (hostC hostC' : String → Option String → JsValue)
    (hostI hostI' : String → JsValue → Except JsValue JsValue)
    (hostT hostT' : (JsValue → Option E) → Bool → JsValue)
    (fp : String) (p : Option String) (cmd : String) (args : A)
    (cb : T → E) (once : Bool) :
    (hostC fp p = hostC' fp p →
      convert_file_src hostC fp p = convert_file_src hostC' fp p) ∧
    ((∀ v, ser args = some v → hostI cmd v = hostI' cmd v) →
      invoke ser de hostI cmd args = invoke ser de hostI' cmd args) ∧
    (hostT (wrap_callback deT cb) once = hostT' (wrap_callback deT cb) once →
      transform_callback deT hostT cb once = transform_callback deT hostT' cb once) := by
  refine ⟨?_, ?_, ?_⟩
  · intro h
    simp [convert_file_src, h]
  · intro h
    rw [invoke, invoke]
    cases hs : ser args with
    | none => simp
    | some v => simp [h v hs]
  · intro h
    simp [transform_callback, h]

/-- Witness for C6: syntactically different hosts agreeing on the one
forwarded call give equal results for all three wrappers. -/
theorem C6_witness :
    convert_file_src (fun fp _ => JsValue.str fp) "a:b" none =
      convert_file_src (fun _ _ => JsValue.str "a:b") "a:b" none ∧
    invoke (fun (n : Int) => some (JsValue.num n)) deInt
        (fun _ v => Except.ok v) "c" 1 =
      invoke (fun (n : Int) => some (JsValue.num n)) deInt
        (fun _ _ => Except.ok (JsValue.num 1)) "c" 1 ∧
    transform_callback deInt (fun w _ => JsValue.num (if (w (JsValue.num 0)).isSome then 3 else 4))
        (fun (n : Int) => n) false =
      transform_callback deInt (fun _ _ => JsValue.num 3)
        (fun (n : Int) => n) false := by
  refine ⟨?_, ?_, ?_⟩
  · exact (C6_layer_stateless (fun (n : Int) => some (JsValue.num n)) deInt deInt
      (fun fp _ => JsValue.str fp) (fun _ _ => JsValue.str "a:b")
      (fun _ v => Except.ok v) (fun _ _ => Except.ok (JsValue.num 1))
      (fun _ _ => JsValue.num 3) (fun _ _ => JsValue.num 3)
      "a:b" none "c" 1 (fun n => n) false).1 rfl
  · exact (C6_layer_stateless (fun (n : Int) => some (JsValue.num n)) deInt deInt
      (fun fp _ => JsValue.str fp) (fun _ _ => JsValue.str "a:b")
      (fun _ v => Except.ok v) (fun _ _ => Except.ok (JsValue.num 1))
      (fun _ _ => JsValue.num 3) (fun _ _ => JsValue.num 3)
      "a:b" none "c" 1 (fun n => n) false).2.1
      (by intro v hv; cases hv; rfl)
  · exact (C6_layer_stateless (fun (n : Int) => some (JsValue.num n)) deInt deInt
      (fun fp _ => JsValue.str fp) (fun _ _ => JsValue.str "a:b")
      (fun _ v => Except.ok v) (fun _ _ => Except.ok (JsValue.num 1))
      (fun w _ => JsValue.num (if (w (JsValue.num 0)).isSome then 3 else 4))
      (fun _ _ => JsValue.num 3)
      "a:b" none "c" 1 (fun n => n) false).2.2 rfl

/-- Claim C7: the two platform branches of the build step invoke the
bundler with the same fixed arguments — output directory `dist`, ESM module
format, bundling enabled, and the identical list of five front-end source
files — differing only in the `cmd /C` shell wrapper. -/
theorem C7_build_branches_equivalent :
    windows_bundler_cmd =
      ("cmd", "/C" :: other_bundler_cmd.1 :: other_bundler_cmd.2) ∧
    other_bundler_cmd.2 =
      "--outdir=dist" :: "--format=esm" :: "--bundle" :: bundler_source_files ∧
    bundler_source_files.length = 5 :=
  ⟨rfl, rfl, rfl⟩

end TauriSys
